import Mathlib

/-!
Shallow embedding of `torch_geometric/datasets/tu_dataset.py` (class
`TUDataset`): the data model, the constructor's attribute-stripping pass,
the `process` pipeline, the raw/processed cache flow, the download step and
the path computations, together with theorems settling the specification
claims about them.
-/

namespace TU

/-- A graph record (`torch_geometric.data.Data` as used by `tu_dataset.py`):
`x` is the node feature matrix (one row per node), `value` is the edge-value
matrix of the sparse adjacency (`data.adj.storage.value()`, one row per
edge), `y` an optional graph-level target. -/
structure Data where
  x : List (List ℤ)
  value : List (List ℤ)
  y : Option ℤ
deriving DecidableEq, Repr

/-- The parsed/persisted content of the three processed artifacts
(`data.pt`, `num_node_attributes.pt`, `num_edge_attributes.pt`), which is
also the shape of what `read_tu_data` returns. -/
structure Parsed where
  list : List Data
  nna : ℕ
  nea : ℕ
deriving DecidableEq, Repr

/-- `__init__` lines 70-72: if `self.num_node_attributes > 0 and not
use_node_attributes`, replace `data.x` by `data.x[:, nna:]` (drop the
leading attribute columns of every row). -/
def stripNode (nna : ℕ) (use_node_attributes : Bool) (d : Data) : Data :=
  if 0 < nna ∧ use_node_attributes = false then
    { d with x := d.x.map (List.drop nna) }
  else d

/-- `__init__` lines 74-78: if `self.num_edge_attributes > 0 and not
use_edge_attributes`, replace the adjacency value matrix by
`value[:, nea:]`. -/
def stripEdge (nea : ℕ) (use_edge_attributes : Bool) (d : Data) : Data :=
  if 0 < nea ∧ use_edge_attributes = false then
    { d with value := d.value.map (List.drop nea) }
  else d

/-- The in-memory record list produced by `__init__` after loading the three
processed artifacts `st`: the node-stripping loop followed by the
edge-stripping loop. -/
def loadDataset (st : Parsed) (use_node_attributes use_edge_attributes : Bool) :
    List Data :=
  (st.list.map (stripNode st.nna use_node_attributes)).map
    (stripEdge st.nea use_edge_attributes)

/-- `process` lines 120-126: optionally filter by `pre_filter`, then
optionally map `pre_transform`. -/
def processList (pre_filter : Option (Data → Bool))
    (pre_transform : Option (Data → Data)) (l : List Data) : List Data :=
  let l1 := match pre_filter with
    | none => l
    | some p => l.filter p
  match pre_transform with
  | none => l1
  | some f => l1.map f

/-- The triple of processed artifacts persisted by `process` (lines
126-128): the filtered/transformed list together with the attribute counts
exactly as returned by `read_tu_data`. -/
def processResult (pre_filter : Option (Data → Bool))
    (pre_transform : Option (Data → Data)) (p : Parsed) : Parsed :=
  { list := processList pre_filter pre_transform p.list
    nna := p.nna
    nea := p.nea }

/-- Width of the first row of a matrix (its column count when the matrix is
rectangular). -/
def headWidth (m : List (List ℤ)) : ℕ :=
  match m with
  | [] => 0
  | row :: _ => row.length

/-- Modelled from the spec: the dataset's node feature count — the number of
feature channels per node (attribute channels plus label channels) of the
records as parsed and persisted. The property itself lives on the framework's
`Dataset` base class, which is outside this file's source. -/
def num_node_features (st : Parsed) : ℕ :=
  match st.list with
  | [] => 0
  | d :: _ => headWidth d.x

/-- Modelled from the spec: the dataset's edge feature count — the number of
edge-value channels of the records as parsed and persisted. The property
itself lives on the framework's `Dataset` base class, outside this file's
source. -/
def num_edge_features (st : Parsed) : ℕ :=
  match st.list with
  | [] => 0
  | d :: _ => headWidth d.value

/-- `num_node_labels` (lines 90-92):
`self.num_node_features - self.num_node_attributes`, Python integer
subtraction. -/
def num_node_labels (st : Parsed) : ℤ :=
  (num_node_features st : ℤ) - (st.nna : ℤ)

/-- `num_edge_labels` (lines 94-96):
`self.num_edge_features - self.num_edge_attributes`. -/
def num_edge_labels (st : Parsed) : ℤ :=
  (num_edge_features st : ℤ) - (st.nea : ℤ)

/-- `url` (canonical source, lines 55-56). -/
def url : String :=
  "https://ls11-www.cs.tu-dortmund.de/people/morris/graphkerneldatasets"

/-- `cleaned_url` (cleaned mirror, lines 57-58). -/
def cleaned_url : String :=
  "https://raw.githubusercontent.com/nd7141/graph_datasets/master/datasets"

/-- `raw_dir` (lines 80-83): `osp.join(root, name, 'raw' + ('_cleaned' if
cleaned else ''))`. -/
def raw_dir (root name : String) (cleaned : Bool) : String :=
  root ++ "/" ++ name ++ "/" ++ ("raw" ++ if cleaned then "_cleaned" else "")

/-- `processed_dir` (lines 85-88). -/
def processed_dir (root name : String) (cleaned : Bool) : String :=
  root ++ "/" ++ name ++ "/" ++
    ("processed" ++ if cleaned then "_cleaned" else "")

/-- `raw_file_names` (lines 98-101): `['{}_{}.txt'.format(name, n) for n in
['A', 'graph_indicator']]`. -/
def raw_file_names (name : String) : List String :=
  ["A", "graph_indicator"].map (fun n => name ++ "_" ++ n ++ ".txt")

/-- `processed_file_names` (lines 103-105). -/
def processed_file_names : List String :=
  ["data.pt", "num_node_attributes.pt", "num_edge_attributes.pt"]

/-- An abstract filesystem/network effect performed by `download`. -/
inductive FSOp where
  | fetchUrl (u folder : String)
  | extractZip (path folder : String)
  | unlink (path : String)
  | rmtree (dir : String)
  | rename (src dst : String)
deriving DecidableEq, Repr

/-- `download` (lines 107-114) as the sequence of effects it performs, in
order. `download_url(u, folder)` saving the archive as
`folder/<name>.zip` is modelled from the spec ("fetches a zip archive ...
deletes the archive"): `download_url` itself is outside this file's
source. -/
def download (root name : String) (cleaned : Bool) : List FSOp :=
  let u := if cleaned then cleaned_url else url
  let folder := root ++ "/" ++ name
  let path := folder ++ "/" ++ name ++ ".zip"
  [FSOp.fetchUrl (u ++ "/" ++ name ++ ".zip") folder,
   FSOp.extractZip path folder,
   FSOp.unlink path,
   FSOp.rmtree (raw_dir root name cleaned),
   FSOp.rename (folder ++ "/" ++ name) (raw_dir root name cleaned)]

/-- The on-disk cache state for one `(root, name, cleaned)` configuration:
`raw = some p` when the required raw files are present (and parse to `p`),
`processed = some q` when the three processed artifacts are present with
content `q`. -/
structure Disk where
  raw : Option Parsed
  processed : Option Parsed
deriving DecidableEq, Repr

/-- Modelled from the spec: the base class's raw-stage check — if the
required raw files are present do nothing, else `download` (fetch the remote
content `remote` into the raw directory). Returns the parse of the raw
files, the new disk state, and the number of network fetches performed. -/
def ensureRaw (remote : Parsed) (d : Disk) : Parsed × Disk × ℕ :=
  match d.raw with
  | some p => (p, d, 0)
  | none => (remote, { d with raw := some remote }, 1)

/-- `process` (lines 116-128) acting on the disk state: read the raw files
(`read_tu_data`), filter/transform, and write the three processed
artifacts. It touches nothing else. -/
def processStep (pre_filter : Option (Data → Bool))
    (pre_transform : Option (Data → Data)) (d : Disk) : Disk :=
  match d.raw with
  | some p => { d with processed := some (processResult pre_filter pre_transform p) }
  | none => d

/-- Modelled from the spec: the base class's processed-stage check — if the
three processed artifacts are present reuse them, else ensure the raw stage
and run `process`. Returns the processed triple, the new disk state, and
the number of network fetches performed. -/
def ensureProcessed (remote : Parsed) (pre_filter : Option (Data → Bool))
    (pre_transform : Option (Data → Data)) (d : Disk) : Parsed × Disk × ℕ :=
  match d.processed with
  | some q => (q, d, 0)
  | none =>
    let r := ensureRaw remote d
    let q := processResult pre_filter pre_transform r.1
    (q, { r.2.1 with processed := some q }, r.2.2)

/-- Constructing the loader: ensure the processed artifacts exist, load
them (`torch.load` of the three processed paths), and run the stripping
passes. Returns the in-memory record list, the new disk state, and the
number of network fetches performed. -/
def construct (remote : Parsed) (pre_filter : Option (Data → Bool))
    (pre_transform : Option (Data → Data))
    (use_node_attributes use_edge_attributes : Bool) (d : Disk) :
    List Data × Disk × ℕ :=
  let r := ensureProcessed remote pre_filter pre_transform d
  (loadDataset r.1 use_node_attributes use_edge_attributes, r.2.1, r.2.2)

/-! ### Helper lemmas -/

theorem stripEdge_x (nea : ℕ) (b : Bool) (d : Data) :
    (stripEdge nea b d).x = d.x := by
  unfold stripEdge; split <;> rfl

theorem stripNode_value (nna : ℕ) (b : Bool) (d : Data) :
    (stripNode nna b d).value = d.value := by
  unfold stripNode; split <;> rfl

theorem stripNode_x_of_pos (nna : ℕ) (d : Data) (h : 0 < nna) :
    (stripNode nna false d).x = d.x.map (List.drop nna) := by
  unfold stripNode
  simp [h]

theorem stripNode_x_true (nna : ℕ) (d : Data) :
    (stripNode nna true d).x = d.x := by
  unfold stripNode
  simp

theorem stripNode_zero (b : Bool) (d : Data) : stripNode 0 b d = d := by
  unfold stripNode
  simp

theorem stripEdge_zero (b : Bool) (d : Data) : stripEdge 0 b d = d := by
  unfold stripEdge
  simp

theorem ensureProcessed_of_processed (remote : Parsed)
    (pf : Option (Data → Bool)) (pt : Option (Data → Data)) (d : Disk)
    (q : Parsed) (h : d.processed = some q) :
    ensureProcessed remote pf pt d = (q, d, 0) := by
  unfold ensureProcessed
  rw [h]

theorem ensureProcessed_post (remote : Parsed) (pf : Option (Data → Bool))
    (pt : Option (Data → Data)) (d : Disk) :
    ((ensureProcessed remote pf pt d).2.1).processed =
      some (ensureProcessed remote pf pt d).1 := by
  unfold ensureProcessed
  cases h : d.processed with
  | some q => simpa using h
  | none => rfl

theorem append_ne_of_length_ne (a s t : String) (h : s.length ≠ t.length) :
    a ++ s ≠ a ++ t := by
  intro he
  apply h
  have hl := congrArg String.length he
  simp only [String.length_append] at hl
  omega

/-! ### Claim theorems -/

/-- C2: for every loaded dataset, `num_node_labels = num_node_features -
num_node_attributes` and `num_edge_labels = num_edge_features -
num_edge_attributes`, and both label counts are nonnegative (given that, as
the parser guarantees, the attribute channels are a leading subset of the
feature channels). -/
theorem c2_label_count_invariant (st : Parsed)
    (h1 : st.nna ≤ num_node_features st) (h2 : st.nea ≤ num_edge_features st) :
    num_node_labels st = (num_node_features st : ℤ) - (st.nna : ℤ) ∧
    num_edge_labels st = (num_edge_features st : ℤ) - (st.nea : ℤ) ∧
    0 ≤ num_node_labels st ∧ 0 ≤ num_edge_labels st := by
  refine ⟨rfl, rfl, ?_, ?_⟩
  · unfold num_node_labels; omega
  · unfold num_edge_labels; omega

theorem c2_label_count_invariant_witness :
    (Parsed.mk [Data.mk [[1, 2]] [[3, 4, 5]] none] 1 2).nna ≤
      num_node_features (Parsed.mk [Data.mk [[1, 2]] [[3, 4, 5]] none] 1 2) ∧
    (Parsed.mk [Data.mk [[1, 2]] [[3, 4, 5]] none] 1 2).nea ≤
      num_edge_features (Parsed.mk [Data.mk [[1, 2]] [[3, 4, 5]] none] 1 2) ∧
    (num_node_labels (Parsed.mk [Data.mk [[1, 2]] [[3, 4, 5]] none] 1 2) =
        (num_node_features (Parsed.mk [Data.mk [[1, 2]] [[3, 4, 5]] none] 1 2) : ℤ) - 1 ∧
      num_edge_labels (Parsed.mk [Data.mk [[1, 2]] [[3, 4, 5]] none] 1 2) =
        (num_edge_features (Parsed.mk [Data.mk [[1, 2]] [[3, 4, 5]] none] 1 2) : ℤ) - 2 ∧
      0 ≤ num_node_labels (Parsed.mk [Data.mk [[1, 2]] [[3, 4, 5]] none] 1 2) ∧
      0 ≤ num_edge_labels (Parsed.mk [Data.mk [[1, 2]] [[3, 4, 5]] none] 1 2)) :=
  ⟨by decide, by decide,
   c2_label_count_invariant _ (by decide) (by decide)⟩

/-- C3: `process` persists the parsed list first filtered by `pre_filter`
and then mapped by `pre_transform`; the filter precedes the transform, and
each step is skipped when its argument is `None`. -/
theorem c3_filter_before_transform (p : Data → Bool) (f : Data → Data)
    (pr : Parsed) :
    (processResult (some p) (some f) pr).list = (pr.list.filter p).map f ∧
    (processResult (some p) none pr).list = pr.list.filter p ∧
    (processResult none (some f) pr).list = pr.list.map f ∧
    (processResult none none pr).list = pr.list :=
  ⟨rfl, rfl, rfl, rfl⟩

/-- C9: `process` persists exactly the attribute counts returned by the
parser, unchanged by `pre_filter` and `pre_transform`. -/
theorem c9_counts_unchanged_by_process (pf : Option (Data → Bool))
    (pt : Option (Data → Data)) (pr : Parsed) :
    (processResult pf pt pr).nna = pr.nna ∧
    (processResult pf pt pr).nea = pr.nea :=
  ⟨rfl, rfl⟩

/-- C8: a `pre_filter` that rejects every record makes the persisted record
list empty. -/
theorem c8_reject_all_empty (p : Data → Bool) (pt : Option (Data → Data))
    (pr : Parsed) (h : ∀ d ∈ pr.list, p d = false) :
    (processResult (some p) pt pr).list = [] := by
  have hf : pr.list.filter p = [] :=
    List.filter_eq_nil_iff.mpr (by simpa using h)
  cases pt <;> simp [processResult, processList, hf]

theorem c8_reject_all_empty_witness :
    (∀ d ∈ (Parsed.mk [Data.mk [[1]] [] none, Data.mk [[2]] [] (some 1)] 0 0).list,
        (fun _ => false) d = false) ∧
    (processResult (some (fun _ => false)) none
        (Parsed.mk [Data.mk [[1]] [] none, Data.mk [[2]] [] (some 1)] 0 0)).list = [] :=
  ⟨by simp, c8_reject_all_empty _ none _ (by simp)⟩

/-- C10: when the persisted `num_node_attributes` is `0`, the constructor
leaves every record's node feature matrix unchanged whatever the
`use_node_attributes` flag; when `num_edge_attributes` is `0`, every
record's edge-value channels are likewise unchanged. -/
theorem c10_zero_attributes_frame (st : Parsed)
    (un ue : Bool) :
    (st.nna = 0 → (loadDataset st un ue).map Data.x = st.list.map Data.x) ∧
    (st.nea = 0 → (loadDataset st un ue).map Data.value = st.list.map Data.value) := by
  constructor
  · intro h
    unfold loadDataset
    rw [List.map_map, List.map_map]
    refine List.map_congr_left ?_
    intro d _
    show (stripEdge st.nea ue (stripNode st.nna un d)).x = d.x
    rw [stripEdge_x, h, stripNode_zero]
  · intro h
    unfold loadDataset
    rw [List.map_map, List.map_map]
    refine List.map_congr_left ?_
    intro d _
    show (stripEdge st.nea ue (stripNode st.nna un d)).value = d.value
    rw [h, stripEdge_zero, stripNode_value]

theorem c10_zero_attributes_frame_witness :
    ((Parsed.mk [Data.mk [[5, 7]] [[6]] none] 0 0).nna = 0 ∧
      (loadDataset (Parsed.mk [Data.mk [[5, 7]] [[6]] none] 0 0) false false).map Data.x =
        [Data.mk [[5, 7]] [[6]] none].map Data.x) ∧
    ((Parsed.mk [Data.mk [[5, 7]] [[6]] none] 0 0).nea = 0 ∧
      (loadDataset (Parsed.mk [Data.mk [[5, 7]] [[6]] none] 0 0) false false).map Data.value =
        [Data.mk [[5, 7]] [[6]] none].map Data.value) :=
  ⟨⟨rfl, (c10_zero_attributes_frame (Parsed.mk [Data.mk [[5, 7]] [[6]] none] 0 0)
      false false).1 rfl⟩,
   ⟨rfl, (c10_zero_attributes_frame (Parsed.mk [Data.mk [[5, 7]] [[6]] none] 0 0)
      false false).2 rfl⟩⟩

/-- C1: on a rectangular persisted dataset whose attribute channels are a
leading subset of its feature channels, loading with
`use_node_attributes = false` (and persisted `num_node_attributes > 0`)
leaves every record's node feature matrix with exactly `num_node_labels`
columns, and loading with `use_node_attributes = true` leaves exactly
`num_node_features` columns. -/
theorem c1_node_feature_column_counts (st : Parsed) (ue : Bool)
    (hW : ∀ d ∈ st.list, ∀ row ∈ d.x, row.length = num_node_features st)
    (hle : st.nna ≤ num_node_features st) :
    (0 < st.nna → ∀ d ∈ loadDataset st false ue, ∀ row ∈ d.x,
        (row.length : ℤ) = num_node_labels st) ∧
    (∀ d ∈ loadDataset st true ue, ∀ row ∈ d.x,
        row.length = num_node_features st) := by
  constructor
  · intro hpos d hd row hrow
    simp only [loadDataset, List.mem_map] at hd
    obtain ⟨e, ⟨d0, hd0, rfl⟩, rfl⟩ := hd
    rw [stripEdge_x, stripNode_x_of_pos _ _ hpos] at hrow
    simp only [List.mem_map] at hrow
    obtain ⟨r, hr, rfl⟩ := hrow
    have h1 : r.length = num_node_features st := hW d0 hd0 r hr
    have h2 : (r.drop st.nna).length = r.length - st.nna := List.length_drop _ _
    unfold num_node_labels
    omega
  · intro d hd row hrow
    simp only [loadDataset, List.mem_map] at hd
    obtain ⟨e, ⟨d0, hd0, rfl⟩, rfl⟩ := hd
    rw [stripEdge_x, stripNode_x_true] at hrow
    exact hW d0 hd0 row hrow

theorem c1_node_feature_column_counts_witness :
    (∀ d ∈ (Parsed.mk [Data.mk [[1, 2], [3, 4]] [] none] 1 0).list, ∀ row ∈ d.x,
        row.length = num_node_features (Parsed.mk [Data.mk [[1, 2], [3, 4]] [] none] 1 0)) ∧
    (Parsed.mk [Data.mk [[1, 2], [3, 4]] [] none] 1 0).nna ≤
      num_node_features (Parsed.mk [Data.mk [[1, 2], [3, 4]] [] none] 1 0) ∧
    ((0 < (Parsed.mk [Data.mk [[1, 2], [3, 4]] [] none] 1 0).nna →
        ∀ d ∈ loadDataset (Parsed.mk [Data.mk [[1, 2], [3, 4]] [] none] 1 0) false true,
          ∀ row ∈ d.x,
            (row.length : ℤ) = num_node_labels (Parsed.mk [Data.mk [[1, 2], [3, 4]] [] none] 1 0)) ∧
      (∀ d ∈ loadDataset (Parsed.mk [Data.mk [[1, 2], [3, 4]] [] none] 1 0) true true,
          ∀ row ∈ d.x,
            row.length = num_node_features (Parsed.mk [Data.mk [[1, 2], [3, 4]] [] none] 1 0))) :=
  ⟨by decide, by decide,
   c1_node_feature_column_counts _ true (by decide) (by decide)⟩

/-- C4: with the on-disk cache in any fixed starting state, constructing the
loader twice in a row with the same parameters yields identical in-memory
record lists. -/
theorem c4_idempotent_construction (remote : Parsed)
    (pf : Option (Data → Bool)) (pt : Option (Data → Data)) (un ue : Bool)
    (d : Disk) :
    (construct remote pf pt un ue ((construct remote pf pt un ue d).2.1)).1 =
    (construct remote pf pt un ue d).1 := by
  have h := ensureProcessed_post remote pf pt d
  simp only [construct]
  rw [ensureProcessed_of_processed remote pf pt _ _ h]

/-- C5: `process` reads only the raw files and writes only the processed
artifacts — it leaves the raw directory untouched; consequently, deleting
just the processed artifacts makes construction reprocess from the existing
raw files with zero network fetches. -/
theorem c5_reprocess_without_redownload (remote : Parsed)
    (pf : Option (Data → Bool)) (pt : Option (Data → Data)) (un ue : Bool)
    (d : Disk) (p : Parsed) (h : d.raw = some p) :
    (processStep pf pt d).raw = d.raw ∧
    (construct remote pf pt un ue { d with processed := none }).2.2 = 0 ∧
    (construct remote pf pt un ue { d with processed := none }).2.1.raw = d.raw ∧
    (construct remote pf pt un ue { d with processed := none }).2.1.processed =
      some (processResult pf pt p) ∧
    (construct remote pf pt un ue { d with processed := none }).1 =
      loadDataset (processResult pf pt p) un ue := by
  refine ⟨?_, ?_, ?_, ?_, ?_⟩ <;>
    simp [processStep, construct, ensureProcessed, ensureRaw, h]

theorem c5_reprocess_without_redownload_witness :
    (Disk.mk (some (Parsed.mk [Data.mk [[1]] [] none] 0 0))
        (some (Parsed.mk [Data.mk [[1]] [] none] 0 0))).raw =
      some (Parsed.mk [Data.mk [[1]] [] none] 0 0) ∧
    ((processStep none none
        (Disk.mk (some (Parsed.mk [Data.mk [[1]] [] none] 0 0))
          (some (Parsed.mk [Data.mk [[1]] [] none] 0 0)))).raw =
      (Disk.mk (some (Parsed.mk [Data.mk [[1]] [] none] 0 0))
        (some (Parsed.mk [Data.mk [[1]] [] none] 0 0))).raw ∧
    (construct (Parsed.mk [] 0 0) none none true true
        { Disk.mk (some (Parsed.mk [Data.mk [[1]] [] none] 0 0))
            (some (Parsed.mk [Data.mk [[1]] [] none] 0 0)) with
          processed := none }).2.2 = 0 ∧
    (construct (Parsed.mk [] 0 0) none none true true
        { Disk.mk (some (Parsed.mk [Data.mk [[1]] [] none] 0 0))
            (some (Parsed.mk [Data.mk [[1]] [] none] 0 0)) with
          processed := none }).2.1.raw =
      (Disk.mk (some (Parsed.mk [Data.mk [[1]] [] none] 0 0))
        (some (Parsed.mk [Data.mk [[1]] [] none] 0 0))).raw ∧
    (construct (Parsed.mk [] 0 0) none none true true
        { Disk.mk (some (Parsed.mk [Data.mk [[1]] [] none] 0 0))
            (some (Parsed.mk [Data.mk [[1]] [] none] 0 0)) with
          processed := none }).2.1.processed =
      some (processResult none none (Parsed.mk [Data.mk [[1]] [] none] 0 0)) ∧
    (construct (Parsed.mk [] 0 0) none none true true
        { Disk.mk (some (Parsed.mk [Data.mk [[1]] [] none] 0 0))
            (some (Parsed.mk [Data.mk [[1]] [] none] 0 0)) with
          processed := none }).1 =
      loadDataset (processResult none none (Parsed.mk [Data.mk [[1]] [] none] 0 0))
        true true) :=
  ⟨rfl, c5_reprocess_without_redownload (Parsed.mk [] 0 0) none none true true
    (Disk.mk (some (Parsed.mk [Data.mk [[1]] [] none] 0 0))
      (some (Parsed.mk [Data.mk [[1]] [] none] 0 0)))
    (Parsed.mk [Data.mk [[1]] [] none] 0 0) rfl⟩

/-- C6: the raw-presence check names exactly `<name>_A.txt` and
`<name>_graph_indicator.txt`, and `download` fetches
`{base_url}/{name}.zip` with the base URL selected by the `cleaned` flag,
extracts the archive into the dataset folder, deletes the archive, removes
the existing raw directory and renames the extracted folder to it — in that
order. -/
theorem c6_download_sequence (root name : String) (cleaned : Bool) :
    raw_file_names name = [name ++ "_A.txt", name ++ "_graph_indicator.txt"] ∧
    download root name cleaned =
      [FSOp.fetchUrl ((if cleaned then cleaned_url else url) ++ "/" ++ name ++ ".zip")
         (root ++ "/" ++ name),
       FSOp.extractZip (root ++ "/" ++ name ++ "/" ++ name ++ ".zip")
         (root ++ "/" ++ name),
       FSOp.unlink (root ++ "/" ++ name ++ "/" ++ name ++ ".zip"),
       FSOp.rmtree (raw_dir root name cleaned),
       FSOp.rename (root ++ "/" ++ name ++ "/" ++ name)
         (raw_dir root name cleaned)] := by
  constructor
  · show [name ++ "_" ++ "A" ++ ".txt", name ++ "_" ++ "graph_indicator" ++ ".txt"] = _
    rw [String.append_assoc, String.append_assoc, String.append_assoc,
      String.append_assoc]
    rfl
  · rfl

/-- C7: for every root and name, the raw and processed directories used with
`cleaned = true` are distinct from those used with `cleaned = false`, so the
two cache variants never share files. -/
theorem c7_cleaned_paths_disjoint (root name : String) :
    raw_dir root name true ≠ raw_dir root name false ∧
    processed_dir root name true ≠ processed_dir root name false ∧
    raw_dir root name true ≠ processed_dir root name false ∧
    processed_dir root name true ≠ raw_dir root name false := by
  refine ⟨?_, ?_, ?_, ?_⟩ <;>
    · simp only [raw_dir, processed_dir, if_pos, if_neg, Bool.true_eq_false,
        not_false_iff, ite_true, ite_false]
      exact append_ne_of_length_ne _ _ _ (by decide)

end TU
